import Mathlib

set_option maxRecDepth 8000

/-!
Shallow embedding of the per-session game engine of the secret-hitler
repository (src/game_state.rs), together with proofs about the claims of
its specification.  Rust `Uuid` player identifiers are modelled as `Nat`,
`HashMap` fields as association lists whose list order stands for the
map's iteration order, and `Vec` policy piles as lists whose *last*
element is the top of the pile (`Vec::pop` removes the last element).
The random shuffles (`rand::SliceRandom::shuffle`) are modelled by
explicit shuffle-function parameters; theorems assume they produce
permutations.  Machine integers (`u8`, `usize`) are modelled as `Nat`;
no counter in the engine can come near an overflow on the paths covered
here, and `usize` subtraction underflow (a Rust panic) is modelled
explicitly where it can occur.
-/

/-- Result of one engine operation.  `ok` is Rust `Ok(())` together with
the mutated state, `err` is Rust `Err(msg)` together with the state as it
stands when the error is returned (the methods mutate `&mut self` in
place), and `panic` marks a failed `.unwrap()` or an out-of-bounds slice,
which aborts the process. -/
inductive Res (α : Type) where
  | ok : α → Res α
  | err : String → α → Res α
  | panic : Res α
  deriving Repr, DecidableEq

/-- Rust `PlayerType` (the misspelling `Facist` is the source's). -/
inductive PlayerType where
  | Liberal
  | Facist
  | Hitler
  deriving Repr, DecidableEq

/-- Rust `CardColor`. -/
inductive CardColor where
  | Facist
  | Liberal
  deriving Repr, DecidableEq

/-- Rust `PresidentialPower`. -/
inductive PresidentialPower where
  | InvestigateLoyalty
  | CallSpecialElection
  | PolicyPeek
  | Execution
  deriving Repr, DecidableEq

/-- Rust `TurnPhase`. -/
inductive TurnPhase where
  | Lobby
  | Ended (winner : CardColor)
  | Electing
  | Voting
  | PresidentSelect
  | ChancellorSelect
  | PresidentialPower (power : PresidentialPower)
  deriving Repr, DecidableEq

/-- The `Display` impl for `CardColor`. -/
def CardColor.display : CardColor → String
  | .Facist => "facist"
  | .Liberal => "liberal"

/-- Rust `matches!(phase, TurnPhase::Lobby)`. -/
def TurnPhase.isLobby : TurnPhase → Bool
  | .Lobby => true
  | _ => false

/-- Rust `matches!(phase, TurnPhase::Voting)`. -/
def TurnPhase.isVoting : TurnPhase → Bool
  | .Voting => true
  | _ => false

/-- Rust `matches!(phase, TurnPhase::Ended { winner: _ })`. -/
def TurnPhase.isEnded : TurnPhase → Bool
  | .Ended _ => true
  | _ => false

/-- Rust `PlayerState`. -/
structure PlayerState where
  role : PlayerType
  vote : Option Bool
  dead : Bool
  deriving Repr, DecidableEq

/-- The `name`/`connected` data of a Rust `PlayerConnection`; the
transport handle and reconnection secret play no role in the engine
claims modelled here. -/
structure PlayerConnection where
  name : Option String
  connected : Bool
  deriving Repr, DecidableEq

/-- Rust `ChatLine`. -/
structure ChatLine where
  id : Option Nat
  message : String
  deriving Repr, DecidableEq

/-- `HashMap::insert`: replace the value when the key is present,
otherwise add the binding. -/
def assocInsert (k : Nat) (v : α) : List (Nat × α) → List (Nat × α)
  | [] => [(k, v)]
  | (k', v') :: rest =>
    if k = k' then (k, v) :: rest else (k', v') :: assocInsert k v rest

/-- In-place update of the value bound to `k` (no-op when absent),
modelling mutation through `HashMap::get_mut`. -/
def assocUpdate (k : Nat) (f : α → α) : List (Nat × α) → List (Nat × α)
  | [] => []
  | (k', v') :: rest =>
    if k = k' then (k', f v') :: rest else (k', v') :: assocUpdate k f rest

/-- Rust `GameState` (the fields touched by the engine operations). -/
structure GameState where
  conn : List (Nat × PlayerConnection)
  chat_log : List ChatLine
  players : List (Nat × PlayerState)
  num_facists : Nat
  liberal_policies : Nat
  facist_policies : Nat
  election_tracker : Nat
  cards : List CardColor
  discarded : List CardColor
  turn_phase : TurnPhase
  turn_counter : Nat
  turn_order : List Nat
  last_president : Option Nat
  last_chancellor : Option Nat
  president : Option Nat
  chancellor : Option Nat
  host : Option Nat
  president_veto : Bool
  chancellor_veto : Bool
  investigated : List (Nat × List Nat)
  deriving Repr, DecidableEq

/-- `shuffle_deck`: 6 liberal cards, then 11 fascist cards, then a
shuffle (the shuffle outcome is the parameter `sh`). -/
def shuffle_deck (sh : List CardColor → List CardColor) : List CardColor :=
  sh (List.replicate 6 CardColor.Liberal ++ List.replicate 11 CardColor.Facist)

/-- `GameState::new`. -/
def GameState.new (sh : List CardColor → List CardColor) : GameState where
  conn := []
  chat_log := []
  players := []
  num_facists := 0
  liberal_policies := 0
  facist_policies := 0
  election_tracker := 0
  cards := shuffle_deck sh
  discarded := []
  turn_phase := TurnPhase.Lobby
  turn_counter := 0
  turn_order := []
  last_president := none
  last_chancellor := none
  president := none
  chancellor := none
  host := none
  president_veto := false
  chancellor_veto := false
  investigated := []

/-- `GameState::add_chat`: append the line and keep the last 250 lines
(the broadcast to the connections is a pure network side effect). -/
def GameState.add_chat (s : GameState) (line : ChatLine) : GameState :=
  let cl := s.chat_log ++ [line]
  { s with chat_log := if cl.length > 250 then cl.drop (cl.length - 250) else cl }

/-- `GameState::add_player`.  Returns the Rust `bool` result together
with the mutated state. -/
def GameState.add_player (s : GameState) (player_id : Nat) (pc : PlayerConnection) :
    Bool × GameState :=
  if !s.turn_phase.isLobby ∧ (s.conn.lookup player_id).isNone then (false, s)
  else
    let nm := pc.name.getD ""
    let is_new := (s.conn.lookup player_id).isNone
    let s1 := { s with conn := assocInsert player_id pc s.conn }
    let s2 :=
      if (s1.players.lookup player_id).isNone then
        let s1' := { s1 with
          players := assocInsert player_id ⟨PlayerType.Liberal, none, false⟩ s1.players }
        if is_new then s1'.add_chat ⟨none, nm ++ " has joined the game"⟩
        else s1'.add_chat ⟨none, nm ++ " has reconnected"⟩
      else s1
    if s2.host = none then (true, { s2 with host := some player_id })
    else (true, s2)

/-- The `match self.players.len()` computing `num_facists` in
`GameState::start` (lines 328-337).  The `d if d % 2 == 0` and `_` arms
are unreachable under the 5..10 player guard; the Rust usize subtraction
there is modelled by Nat subtraction. -/
def facistTable (n : Nat) : Nat :=
  if n = 5 then 1 else if n = 6 then 1 else if n = 7 then 2 else if n = 8 then 2
  else if n = 9 then 3 else if n = 10 then 3
  else if n % 2 = 0 then (n - 1) / 2 - 1 else n / 2 - 1

/-- The role list built in `GameState::start` (lines 338-345):
`n - num_facists - 1` liberals, then `num_facists` fascists, then one
Hitler, prior to the shuffle. -/
def startRoles (n : Nat) : List PlayerType :=
  List.replicate (n - facistTable n - 1) PlayerType.Liberal
    ++ List.replicate (facistTable n) PlayerType.Facist ++ [PlayerType.Hitler]

/-- `GameState::start`.  `shR` is the role shuffle, `shO` the turn-order
shuffle; both are outcomes of `SliceRandom::shuffle`. -/
def GameState.start (s : GameState) (shR : List PlayerType → List PlayerType)
    (shO : List Nat → List Nat) (player : Nat) : Res GameState :=
  if !s.turn_phase.isLobby then .err "The game has already started!" s
  else if s.host ≠ some player then .err "Only the host may start the game!" s
  else if s.players.length < 5 ∨ s.players.length > 10 then
    .err "There are too many or too few players to start a game!" s
  else
    let num_facists : Nat := facistTable s.players.length
    let rolesSh := shR (startRoles s.players.length)
    -- `players.iter_mut().zip(roles)` assigns roles and pushes the turn
    -- order in the map's iteration order; `zip` truncates like Rust's
    let zipped := s.players.zip rolesSh
    let players' := zipped.map (fun x => (x.1.1, { x.1.2 with role := x.2 }))
    match shO (zipped.map (fun x => x.1.1)) with
    | [] => .panic   -- `turn_order[0]` on an empty order (unreachable: n ≥ 5)
    | t0 :: rest =>
      .ok { s with
              players := players'
              num_facists := num_facists
              president := some t0
              turn_order := t0 :: rest
              turn_phase := TurnPhase.Electing }

/-- `GameState::choose_chancellor`. -/
def GameState.choose_chancellor (s : GameState) (player target_player : Nat) :
    Res GameState :=
  if s.turn_phase ≠ TurnPhase.Electing then
    .err "You cannot perform this action at this time!" s
  else if some player ≠ s.president then
    .err "You are not the president, so you cannot choose the chancellor!" s
  else if player = target_player then
    .err "You cannot choose yourself. You must choose another player as the chancellor." s
  else if some target_player = s.last_chancellor ∨ some target_player = s.last_president then
    .err "You cannot choose the last elected president or chancellor." s
  else
    match s.players.lookup target_player with
    | none => .err "That player does not exist!" s
    | some plr =>
      if plr.dead then .err "That player is dead!" s
      else
        .ok { s with
                turn_phase := TurnPhase.Voting
                chancellor := some target_player
                players := s.players.map (fun kv => (kv.1, { kv.2 with vote := none })) }

/-- `GameState::next_president`: record the last government, clear the
chancellor and move the rotating pointer.  `turn_order[counter % len]`
panics when the turn order is empty. -/
def GameState.next_president (s : GameState) : Res GameState :=
  let tc := s.turn_counter + 1
  match s.turn_order[tc % s.turn_order.length]? with
  | none => .panic
  | some p =>
    .ok { s with
            last_president := s.president
            last_chancellor := s.chancellor
            chancellor := none
            turn_counter := tc
            turn_phase := TurnPhase.Electing
            president := some p }

/-- `GameState::reshuffle_deck`: move the discard pile into the draw pile
and shuffle. -/
def GameState.reshuffle_deck (s : GameState) (sh : List CardColor → List CardColor) :
    GameState :=
  { s with cards := sh (s.cards ++ s.discarded), discarded := [] }

/-- The chat announcement at the top of `GameState::enact_policy`
(lines 453-458): name both government members, or report chaos when
either name is unavailable. -/
def GameState.enactChat (s : GameState) (card : CardColor) : GameState :=
  let presName := (s.president.bind (fun p => s.conn.lookup p)).bind (fun c => c.name)
  let chanName := (s.chancellor.bind (fun p => s.conn.lookup p)).bind (fun c => c.name)
  match presName, chanName with
  | some pn, some cn =>
    s.add_chat ⟨none, "President " ++ pn ++ " and chancellor " ++ cn
      ++ " have enacted a " ++ card.display ++ " policy."⟩
  | _, _ =>
    s.add_chat ⟨none, "The government has been thrown into chaos! A random "
      ++ card.display ++ " policy has been enacted."⟩

/-- The counter bump and phase selection at the bottom of
`GameState::enact_policy` (lines 463-506, including the final
`next_president` call when no power triggers). -/
def GameState.enactPhase (s : GameState) (card : CardColor) : Res GameState :=
  match card with
  | CardColor.Facist =>
    let fp := s.facist_policies + 1
    let s2 := { s with facist_policies := fp }
    if fp ≥ 6 then .ok { s2 with turn_phase := TurnPhase.Ended CardColor.Facist }
    else
      let n := s2.players.length
      if 5 ≤ n ∧ n ≤ 6 ∧ fp = 3 then
        .ok { s2 with turn_phase := TurnPhase.PresidentialPower PresidentialPower.PolicyPeek }
      else if (9 ≤ n ∧ n ≤ 10 ∧ 1 ≤ fp ∧ fp ≤ 2) ∨ (7 ≤ n ∧ n ≤ 8 ∧ fp = 2) then
        .ok { s2 with turn_phase := TurnPhase.PresidentialPower PresidentialPower.InvestigateLoyalty }
      else if 7 ≤ n ∧ n ≤ 10 ∧ fp = 3 then
        .ok { s2 with turn_phase := TurnPhase.PresidentialPower PresidentialPower.CallSpecialElection }
      else if 4 ≤ fp ∧ fp ≤ 5 then
        .ok { s2 with turn_phase := TurnPhase.PresidentialPower PresidentialPower.Execution }
      else s2.next_president
  | CardColor.Liberal =>
    let lp := s.liberal_policies + 1
    let s2 := { s with liberal_policies := lp }
    if lp ≥ 5 then .ok { s2 with turn_phase := TurnPhase.Ended CardColor.Liberal }
    else s2.next_president

/-- `GameState::enact_policy`: chat announcement, reshuffle when fewer
than 3 cards remain, bump the counter and select the next phase (win,
presidential power, or next president). -/
def GameState.enact_policy (s : GameState) (sh : List CardColor → List CardColor)
    (card : CardColor) : Res GameState :=
  let s0 := s.enactChat card
  let s1 := if s0.cards.length < 3 then s0.reshuffle_deck sh else s0
  s1.enactPhase card

/-- Recording one ballot (`data.vote = Some(vote)` through
`players.get_mut`). -/
def recordVote (s : GameState) (player : Nat) (vote : Bool) : GameState :=
  { s with players := assocUpdate player (fun d => { d with vote := some vote }) s.players }

/-- `players.values().all(|plr| plr.dead || plr.vote.is_some())`. -/
def allVoted (ps : List (Nat × PlayerState)) : Bool :=
  ps.all (fun kv => kv.2.dead || kv.2.vote.isSome)

/-- The tally loop of `vote_chancellor`: a `Some(true)` ballot counts for
the government, anything else — `Some(false)` or the `None` of a player
who cast no ballot, dead players included — counts against it. -/
def voteTally (ps : List (Nat × PlayerState)) : Nat × Nat :=
  ps.foldl
    (fun acc kv =>
      match kv.2.vote with
      | some true => (acc.1 + 1, acc.2)
      | _ => (acc.1, acc.2 + 1))
    (0, 0)

/-- `GameState::vote_chancellor`. -/
def GameState.vote_chancellor (s : GameState) (sh : List CardColor → List CardColor)
    (player : Nat) (vote : Bool) : Res GameState :=
  if !s.turn_phase.isVoting then .err "You cannot perform this action at this time!" s
  else
    match s.players.lookup player with
    | none => .err "This player does not exist!" s
    | some data =>
      if data.dead then .err "You are dead and therefore cannot vote!" s
      else
        let s1 := recordVote s player vote
        if allVoted s1.players then
          let t := voteTally s1.players
          if t.1 > t.2 then
            match s1.chancellor with
            | none => .panic   -- `self.chancellor.unwrap()`
            | some ch =>
              match s1.players.lookup ch with
              | none => .panic   -- `self.players.get(..).unwrap()`
              | some chp =>
                -- hitler wins if elected chancellor with more than 3 facist policies
                if chp.role = PlayerType.Hitler ∧ s1.facist_policies > 3 then
                  .ok { s1 with turn_phase := TurnPhase.Ended CardColor.Facist }
                else
                  .ok { s1 with turn_phase := TurnPhase.PresidentSelect, election_tracker := 0 }
          else
            let s2 := { s1 with
                          chancellor := none
                          election_tracker := s1.election_tracker + 1 }
            if s2.election_tracker ≥ 3 then
              let s3 := { s2 with election_tracker := 0 }
              match s3.cards.getLast? with
              | none => .panic   -- `self.cards.pop().unwrap()`
              | some card => GameState.enact_policy { s3 with cards := s3.cards.dropLast } sh card
            else s2.next_president
        else .ok s1

/-- One turn of the `for _ in 0..3 { if let Some(card) = cards.pop() { discarded.push(card) } }` loop of `veto`. -/
def popToDiscard (s : GameState) : GameState :=
  match s.cards.getLast? with
  | some c => { s with cards := s.cards.dropLast, discarded := s.discarded ++ [c] }
  | none => s

/-- The both-parties-consented continuation of `GameState::veto`
(lines 539-561): bump the election tracker; at 3 reset it, drop the
president's set-aside marker from the discard pile, move the 3 drawn
cards there, and force-enact the next draw; below 3 just advance the
presidency. -/
def GameState.vetoResolve (s1 : GameState) (sh : List CardColor → List CardColor) :
    Res GameState :=
  let s2 := { s1 with election_tracker := s1.election_tracker + 1 }
  if s2.election_tracker ≥ 3 then
    -- remove the card that the president discarded,
    -- put all 3 drawn cards in the discard pile
    let s3 := { s2 with election_tracker := 0, discarded := s2.discarded.dropLast }
    let s4 := popToDiscard (popToDiscard (popToDiscard s3))
    -- draw the next card and enact it
    match s4.cards.getLast? with
    | some card => GameState.enact_policy { s4 with cards := s4.cards.dropLast } sh card
    | none =>
      let s5 := s4.reshuffle_deck sh
      match s5.cards.getLast? with
      | some card => GameState.enact_policy { s5 with cards := s5.cards.dropLast } sh card
      | none => .panic   -- `self.cards.pop().unwrap()` after the reshuffle
  else s2.next_president

/-- `GameState::veto`. -/
def GameState.veto (s : GameState) (sh : List CardColor → List CardColor)
    (player : Nat) : Res GameState :=
  if s.turn_phase ≠ TurnPhase.ChancellorSelect then
    .err "You cannot veto a policy decision at this time!" s
  else if s.facist_policies < 5 then
    .err "You cannot veto policies until 5 facist policies have been passed." s
  else
    let flagged : Option GameState :=
      if some player = s.chancellor then some { s with chancellor_veto := true }
      else if some player = s.president then some { s with president_veto := true }
      else none
    match flagged with
    | none => .err "Only the president and the chancellor may participate in the veto process." s
    | some s1 =>
      if s1.president_veto && s1.chancellor_veto then s1.vetoResolve sh
      else .ok s1

/-- `GameState::pick_card`. -/
def GameState.pick_card (s : GameState) (sh : List CardColor → List CardColor)
    (player : Nat) (color : CardColor) : Res GameState :=
  match s.turn_phase with
  | TurnPhase.PresidentSelect =>
    if some player ≠ s.president then
      .err "Only the president may select policies at this time." s
    else if s.cards.length < 3 then .panic   -- `cards[len-3..len]` underflows
    else
      let top3 := s.cards.drop (s.cards.length - 3)
      -- the source tests `matches!(c, _color)`: `_color` is an irrefutable
      -- binding pattern, not a comparison with `color`, so the test holds
      -- for every card and the validation never rejects
      if top3.any (fun _c => true) then
        .ok { s with
                discarded := s.discarded ++ [color]
                president_veto := false
                chancellor_veto := false
                turn_phase := TurnPhase.ChancellorSelect }
      else .err "That policy is not a valid option." s
  | TurnPhase.ChancellorSelect =>
    if some player ≠ s.chancellor then
      .err "Only the president may select policies at this time." s
    else if s.cards.length < 3 then .panic   -- `cards[len-3..len]` underflows
    else
      let choices0 := s.cards.drop (s.cards.length - 3)
      -- `if let Some(card) = discarded.last()`: drop the president's
      -- set-aside card; `position(..).unwrap()` panics when it is absent
      let choicesOpt : Option (List CardColor) :=
        match s.discarded.getLast? with
        | none => some choices0
        | some card => (choices0.findIdx? (fun c => c == card)).map choices0.eraseIdx
      match choicesOpt with
      | none => .panic
      | some choices =>
        if choices.contains color then
          match choices.findIdx? (fun c => c == color) with
          | none => .panic   -- guarded by `contains`, cannot fail
          | some j =>
            let choices' := choices.eraseIdx j
            let cards' := s.cards.dropLast.dropLast.dropLast
            match choices'.getLast? with
            | none => .panic   -- `choices.pop().unwrap()`
            | some leftover =>
              GameState.enact_policy
                { s with cards := cards', discarded := s.discarded ++ [leftover] } sh color
        else .err "This policy is not available to enact." s
  | _ => .err "You cannot perform this action at this time!" s

/-- `GameState::execute_presidential_power`. -/
def GameState.execute_presidential_power (s : GameState) (player : Nat)
    (target : Option Nat) : Res GameState :=
  if some player ≠ s.president then
    .err "Only the current president may execute presidential powers." s
  else
    match s.turn_phase with
    | TurnPhase.PresidentialPower power =>
      match power with
      | PresidentialPower.InvestigateLoyalty =>
        match target with
        | none => .err "You must select a player!" s
        | some t =>
          match s.players.lookup t with
          | none => .err "That player does not exist!" s
          | some _ =>
            if t = player then .err "You cannot investigate yourself!" s
            else
              let lst := ((s.investigated.lookup player).getD []) ++ [t]
              let s1 := { s with investigated := assocInsert player lst s.investigated }
              let pn := (s1.conn.lookup player).bind (fun c => c.name)
              let tn := (s1.conn.lookup t).bind (fun c => c.name)
              let s2 :=
                match pn, tn with
                | some a, some b =>
                  s1.add_chat ⟨none, "President " ++ a ++ " has investigated " ++ b ++ "."⟩
                | _, _ => s1
              s2.next_president
      | PresidentialPower.CallSpecialElection =>
        if target = some player then .err "You cannot choose yourself!" s
        else
          match target with
          | none => .err "You must select a player!" s
          | some t =>
            match s.players.lookup t with
            | none => .err "That player does not exist!" s
            | some plr =>
              if plr.dead then .err "That player is dead!" s
              else
                let pn := (s.conn.lookup player).bind (fun c => c.name)
                let tn := (s.conn.lookup t).bind (fun c => c.name)
                let s1 :=
                  match pn, tn with
                  | some a, some b =>
                    s.add_chat ⟨none, "President " ++ a ++ " has nominated " ++ b
                      ++ " as president in a special election."⟩
                  | _, _ => s
                .ok { s1 with
                        last_president := s1.president
                        last_chancellor := s1.chancellor
                        chancellor := none
                        president := some t
                        turn_phase := TurnPhase.Electing }
      | PresidentialPower.Execution =>
        if target = some player then .err "You cannot execute yourself!" s
        else
          match target with
          | none => .err "You must select a player!" s
          | some t =>
            match s.players.lookup t with
            | none => .err "That player does not exist!" s
            | some plr =>
              if plr.dead then .err "That player is already dead!" s
              else
                let s1 := { s with
                              players := assocUpdate t (fun d => { d with dead := true }) s.players
                              turn_order := s.turn_order.erase t }
                let s2r : Res GameState :=
                  if plr.role = PlayerType.Hitler then
                    .ok { s1 with turn_phase := TurnPhase.Ended CardColor.Liberal }
                  else s1.next_president
                match s2r with
                | Res.ok s2 =>
                  -- the chat runs after the phase change, so
                  -- `self.president.unwrap()` names the *new* president
                  -- in the non-Hitler case
                  match s2.president with
                  | none => .panic
                  | some pr =>
                    let pn := (s2.conn.lookup pr).bind (fun c => c.name)
                    let tn := (s2.conn.lookup t).bind (fun c => c.name)
                    match pn, tn with
                    | some a, some b =>
                      .ok (s2.add_chat ⟨none, "President " ++ a ++ " has killed " ++ b ++ "."⟩)
                    | _, _ => .ok s2
                | r => r
      | PresidentialPower.PolicyPeek => s.next_president
    | _ => .err "You cannot execute a presidential power at this time." s

/-- The investigation ledger of one observer
(`investigated.get(&player).unwrap_or(&vec![])`). -/
def investigatedOf (s : GameState) (observer : Nat) : List Nat :=
  (s.investigated.lookup observer).getD []

/-- The `role` field of the per-player record built by
`GameStatePlayerView::serialize` for the entry `(k, v)` of the players
map, as seen by `observer` whose own role is `observerRole`
(`players.get(&self.player).unwrap().role`). -/
def roleEntry (s : GameState) (observerRole : PlayerType) (observer k : Nat)
    (v : PlayerState) : Option PlayerType :=
  if s.turn_phase.isEnded ∨ observer = k ∨ observerRole = PlayerType.Facist
      ∨ (observerRole = PlayerType.Hitler ∧ s.players.length ≤ 6) then
    some v.role
  else if (investigatedOf s observer).contains k then
    some (match v.role with
          | PlayerType.Liberal => PlayerType.Liberal
          | _ => PlayerType.Facist)
  else none

/-- The same `role` field with the observer's own record looked up the
way the serializer does; the lookup `.unwrap()` panics when the observer
is not in the players map. -/
def viewRole (s : GameState) (observer k : Nat) (v : PlayerState) :
    Res (Option PlayerType) :=
  match s.players.lookup observer with
  | none => .panic
  | some od => .ok (roleEntry s od.role observer k v)

/-- Rust `Iterator::rposition`: index of the last element satisfying the
predicate. -/
def rposition (p : α → Bool) (l : List α) : Option Nat :=
  match l.reverse.findIdx? p with
  | none => none
  | some i => some (l.length - 1 - i)

/-- The `cards` entry of the serialized view for a chancellor during
`ChancellorSelect` (lines 155-159 of game_state.rs): the top 3 draw-pile
cards minus the president's set-aside card, located with
`rposition(..).unwrap()` — a panic when the set-aside color is not among
the top 3. -/
def chancellorCardsEntry (s : GameState) (player : Nat) :
    Res (Option (List CardColor)) :=
  if s.turn_phase = TurnPhase.ChancellorSelect ∧ some player = s.chancellor then
    if s.cards.length < 3 then .panic   -- `cards[len-3..len]` underflows
    else
      let cards := s.cards.drop (s.cards.length - 3)
      match rposition (fun x => some x == s.discarded.getLast?) cards with
      | none => .panic
      | some idx => .ok (some (cards.eraseIdx idx))
  else .ok none

/-- Res helpers. -/
def Res.isOk : Res α → Bool
  | .ok _ => true
  | _ => false

def Res.isErr : Res α → Bool
  | .err _ _ => true
  | _ => false

/-- The state carried by an operation result (`panic` aborts the
process; the fallback value is only there to make the function total). -/
def resState (r : Res GameState) : GameState :=
  match r with
  | .ok s => s
  | .err _ s => s
  | .panic => GameState.new id

/-- A shuffle outcome: some permutation of its input. -/
def IsShuffle (sh : List α → List α) : Prop :=
  ∀ l, List.Perm (sh l) l

theorem isShuffle_id : IsShuffle (id : List α → List α) :=
  fun l => List.Perm.refl l

/-- The states a session can reach from a fresh lobby through the
player-initiated engine operations (each shuffle outcome ranges over all
permutations; an operation step requires the operation to succeed). -/
inductive Reachable : GameState → Prop where
  | init (sh : List CardColor → List CardColor) (hsh : IsShuffle sh) :
      Reachable (GameState.new sh)
  | add (s : GameState) (pid : Nat) (pc : PlayerConnection) (h : Reachable s) :
      Reachable (s.add_player pid pc).2
  | startStep (s s' : GameState) (shR : List PlayerType → List PlayerType)
      (shO : List Nat → List Nat) (p : Nat) (h : Reachable s)
      (hR : IsShuffle shR) (hO : IsShuffle shO)
      (hok : s.start shR shO p = Res.ok s') : Reachable s'
  | chooseStep (s s' : GameState) (p t : Nat) (h : Reachable s)
      (hok : s.choose_chancellor p t = Res.ok s') : Reachable s'
  | voteStep (s s' : GameState) (sh : List CardColor → List CardColor)
      (p : Nat) (v : Bool) (h : Reachable s) (hsh : IsShuffle sh)
      (hok : s.vote_chancellor sh p v = Res.ok s') : Reachable s'
  | pickStep (s s' : GameState) (sh : List CardColor → List CardColor)
      (p : Nat) (c : CardColor) (h : Reachable s) (hsh : IsShuffle sh)
      (hok : s.pick_card sh p c = Res.ok s') : Reachable s'
  | vetoStep (s s' : GameState) (sh : List CardColor → List CardColor)
      (p : Nat) (h : Reachable s) (hsh : IsShuffle sh)
      (hok : s.veto sh p = Res.ok s') : Reachable s'
  | powerStep (s s' : GameState) (p : Nat) (t : Option Nat) (h : Reachable s)
      (hok : s.execute_presidential_power p t = Res.ok s') : Reachable s'

/-!
A concrete five-player session, driven with identity shuffles: the lobby
fills with players 0..4, the host starts the game (roles `[L,L,L,F,H]`
and turn order `[0,1,2,3,4]` in join order), president 0 nominates the
liberal player 1, everyone votes yes, and the deck `[6×L, 11×F]` (top of
the pile at the end of the list) offers the president the three fascist
cards on top.
-/

def anonConn : PlayerConnection := ⟨none, true⟩

def t0 : GameState := GameState.new id
def t1 : GameState := (t0.add_player 0 anonConn).2
def t2 : GameState := (t1.add_player 1 anonConn).2
def t3 : GameState := (t2.add_player 2 anonConn).2
def t4 : GameState := (t3.add_player 3 anonConn).2
def t5 : GameState := (t4.add_player 4 anonConn).2
def t6 : GameState := resState (t5.start id id 0)
def t7 : GameState := resState (t6.choose_chancellor 0 1)
def t8 : GameState := resState (t7.vote_chancellor id 0 true)
def t9 : GameState := resState (t8.vote_chancellor id 1 true)
def t10 : GameState := resState (t9.vote_chancellor id 2 true)
def t11 : GameState := resState (t10.vote_chancellor id 3 true)
def t12 : GameState := resState (t11.vote_chancellor id 4 true)
def t13 : GameState := resState (t12.pick_card id 0 CardColor.Liberal)


theorem reach_t5 : Reachable t5 :=
  Reachable.add t4 4 anonConn
    (Reachable.add t3 3 anonConn
      (Reachable.add t2 2 anonConn
        (Reachable.add t1 1 anonConn
          (Reachable.add t0 0 anonConn
            (Reachable.init id isShuffle_id)))))

theorem reach_t6 : Reachable t6 :=
  Reachable.startStep t5 t6 id id 0 reach_t5 isShuffle_id isShuffle_id rfl

theorem reach_t7 : Reachable t7 :=
  Reachable.chooseStep t6 t7 0 1 reach_t6 rfl

theorem reach_t12 : Reachable t12 :=
  Reachable.voteStep t11 t12 id 4 true
    (Reachable.voteStep t10 t11 id 3 true
      (Reachable.voteStep t9 t10 id 2 true
        (Reachable.voteStep t8 t9 id 1 true
          (Reachable.voteStep t7 t8 id 0 true reach_t7 isShuffle_id rfl)
          isShuffle_id rfl)
        isShuffle_id rfl)
      isShuffle_id rfl)
    isShuffle_id rfl

theorem reach_t13 : Reachable t13 :=
  Reachable.pickStep t12 t13 id 0 CardColor.Liberal reach_t12 isShuffle_id rfl

/-- C4: in phase `PresidentSelect` the engine is claimed to reject, with
`InvalidChoice` and no state change, a `pick_card` whose color is not
among the 3 drawn cards.  In the reachable state `t12` the three drawn
cards are all fascist, yet the president's pick of a liberal card is
accepted: the Rust guard `matches!(c, _color)` binds `_color` as an
irrefutable pattern instead of comparing with `color`, so the validation
never fires, the phantom liberal card is pushed onto the discard pile and
the phase advances to `ChancellorSelect`. -/
theorem C4_president_pick_validation_dead :
    Reachable t12 ∧
    t12.turn_phase = TurnPhase.PresidentSelect ∧
    t12.president = some 0 ∧
    (t12.cards.drop (t12.cards.length - 3)).contains CardColor.Liberal = false ∧
    t12.pick_card id 0 CardColor.Liberal = Res.ok t13 ∧
    t13.turn_phase = TurnPhase.ChancellorSelect ∧
    t13.discarded = t12.discarded ++ [CardColor.Liberal] :=
  ⟨reach_t12, rfl, rfl, rfl, rfl, rfl, rfl⟩

/-- C3: the deck-conservation claim (17 cards, 6 liberal and 11 fascist,
across draw pile + discard pile + cards in hand; no operation duplicates
a card) fails on the reachable state `t13`: after the unvalidated
president pick of C4, and before any policy has been enacted, the draw
and discard piles together hold 18 cards of which 7 are liberal. -/
theorem C3_card_duplicated_on_reachable_state :
    Reachable t13 ∧
    t13.liberal_policies = 0 ∧
    t13.facist_policies = 0 ∧
    (t13.cards ++ t13.discarded).length = 18 ∧
    (t13.cards ++ t13.discarded).count CardColor.Liberal = 7 :=
  ⟨reach_t13, rfl, rfl, rfl, rfl⟩

/-- C8: the no-panic claim fails on the reachable state `t13`: the
chancellor's `pick_card` hits the `position(..).unwrap()` that locates
the president's set-aside card among the top 3 draw-pile cards (the
set-aside color, liberal, is not among them), and the chancellor's view
serialization hits the matching `rposition(..).unwrap()`; both are
process-fatal panics rather than user-facing rejections. -/
theorem C8_reachable_panic :
    Reachable t13 ∧
    t13.pick_card id 1 CardColor.Facist = Res.panic ∧
    chancellorCardsEntry t13 1 = Res.panic :=
  ⟨reach_t13, rfl, rfl⟩

/-- A plain five-player mid-game state used to instantiate theorems with
concrete inputs. -/
def base5 : GameState where
  conn := []
  chat_log := []
  players := [(0, ⟨PlayerType.Liberal, none, false⟩), (1, ⟨PlayerType.Liberal, none, false⟩),
              (2, ⟨PlayerType.Liberal, none, false⟩), (3, ⟨PlayerType.Facist, none, false⟩),
              (4, ⟨PlayerType.Hitler, none, false⟩)]
  num_facists := 1
  liberal_policies := 0
  facist_policies := 0
  election_tracker := 0
  cards := shuffle_deck id
  discarded := []
  turn_phase := TurnPhase.Electing
  turn_counter := 0
  turn_order := [0, 1, 2, 3, 4]
  last_president := none
  last_chancellor := none
  president := some 0
  chancellor := none
  host := some 0
  president_veto := false
  chancellor_veto := false
  investigated := []

def sEnd : GameState := { base5 with turn_phase := TurnPhase.Ended CardColor.Liberal }

/-- C7: in any state whose phase is `Ended`, every engine operation
returns a rejection and hands back the state unchanged — in particular
the policy counts, the phase and every player's role are unchanged.
(Proved for every such state, reachable or not.) -/
theorem C7_ended_is_terminal (s : GameState) (w : CardColor)
    (shR : List PlayerType → List PlayerType) (shO : List Nat → List Nat)
    (sh : List CardColor → List CardColor) (p t : Nat) (tg : Option Nat)
    (v : Bool) (c : CardColor) (h : s.turn_phase = TurnPhase.Ended w) :
    s.start shR shO p = Res.err "The game has already started!" s ∧
    s.choose_chancellor p t = Res.err "You cannot perform this action at this time!" s ∧
    s.vote_chancellor sh p v = Res.err "You cannot perform this action at this time!" s ∧
    s.pick_card sh p c = Res.err "You cannot perform this action at this time!" s ∧
    s.veto sh p = Res.err "You cannot veto a policy decision at this time!" s ∧
    (s.execute_presidential_power p tg
        = Res.err "Only the current president may execute presidential powers." s ∨
      s.execute_presidential_power p tg
        = Res.err "You cannot execute a presidential power at this time." s) := by
  refine ⟨?_, ?_, ?_, ?_, ?_, ?_⟩
  · unfold GameState.start
    rw [h]
    rfl
  · unfold GameState.choose_chancellor
    rw [h]
    rfl
  · unfold GameState.vote_chancellor
    rw [h]
    rfl
  · unfold GameState.pick_card
    rw [h]
  · unfold GameState.veto
    rw [h]
    rfl
  · unfold GameState.execute_presidential_power
    rcases Decidable.em (some p = s.president) with hp | hp
    · right
      rw [if_neg (fun hc => hc hp), h]
    · left
      rw [if_pos hp]

/-- Witness for C7 at a concrete ended state. -/
theorem C7_witness :
    sEnd.start id id 0 = Res.err "The game has already started!" sEnd ∧
    sEnd.choose_chancellor 0 1 = Res.err "You cannot perform this action at this time!" sEnd ∧
    sEnd.vote_chancellor id 0 true = Res.err "You cannot perform this action at this time!" sEnd ∧
    sEnd.pick_card id 0 CardColor.Liberal = Res.err "You cannot perform this action at this time!" sEnd ∧
    sEnd.veto id 0 = Res.err "You cannot veto a policy decision at this time!" sEnd ∧
    (sEnd.execute_presidential_power 0 (some 1)
        = Res.err "Only the current president may execute presidential powers." sEnd ∨
      sEnd.execute_presidential_power 0 (some 1)
        = Res.err "You cannot execute a presidential power at this time." sEnd) :=
  C7_ended_is_terminal sEnd CardColor.Liberal id id id 0 1 (some 1) true CardColor.Liberal rfl

set_option maxHeartbeats 1000000

theorem next_president_ne_err (s : GameState) (m : String) (u : GameState) :
    s.next_president ≠ Res.err m u := by
  unfold GameState.next_president
  intro hcon
  simp only [] at hcon
  split at hcon <;> simp_all

theorem enactPhase_ne_err (s : GameState) (c : CardColor) (m : String)
    (u : GameState) : s.enactPhase c ≠ Res.err m u := by
  unfold GameState.enactPhase
  intro hcon
  repeat'
    first
      | split at hcon
      | dsimp only [] at hcon
  all_goals
    first
      | exact Res.noConfusion hcon
      | exact next_president_ne_err _ _ _ hcon

theorem enact_policy_ne_err (s : GameState) (sh : List CardColor → List CardColor)
    (c : CardColor) (m : String) (u : GameState) :
    s.enact_policy sh c ≠ Res.err m u := by
  unfold GameState.enact_policy
  intro hcon
  dsimp only [] at hcon
  split at hcon <;> exact enactPhase_ne_err _ _ _ _ hcon

theorem start_err_unchanged (s : GameState) (shR : List PlayerType → List PlayerType)
    (shO : List Nat → List Nat) (p : Nat) (m : String) (u : GameState) :
    s.start shR shO p = Res.err m u → u = s := by
  unfold GameState.start
  intro h
  repeat' split at h
  all_goals try (injection h with h1 h2; exact h2.symm)
  all_goals dsimp only [] at h
  all_goals split at h <;> exact Res.noConfusion h

theorem choose_chancellor_err_unchanged (s : GameState) (p t : Nat) (m : String)
    (u : GameState) : s.choose_chancellor p t = Res.err m u → u = s := by
  unfold GameState.choose_chancellor
  intro h
  repeat'
    first
      | split at h
      | dsimp only [] at h
  all_goals
    first
      | (injection h with h1 h2; exact h2.symm)
      | exact Res.noConfusion h

theorem vote_chancellor_err_unchanged (s : GameState)
    (sh : List CardColor → List CardColor) (p : Nat) (v : Bool) (m : String)
    (u : GameState) : s.vote_chancellor sh p v = Res.err m u → u = s := by
  unfold GameState.vote_chancellor
  intro h
  repeat'
    first
      | split at h
      | dsimp only [] at h
  all_goals
    first
      | (injection h with h1 h2; exact h2.symm)
      | exact Res.noConfusion h
      | exact absurd h (next_president_ne_err _ _ _)
      | exact absurd h (enact_policy_ne_err _ _ _ _ _)

theorem pick_card_err_unchanged (s : GameState)
    (sh : List CardColor → List CardColor) (p : Nat) (c : CardColor) (m : String)
    (u : GameState) : s.pick_card sh p c = Res.err m u → u = s := by
  unfold GameState.pick_card
  intro h
  repeat'
    first
      | split at h
      | dsimp only [] at h
  all_goals
    first
      | (injection h with h1 h2; exact h2.symm)
      | exact Res.noConfusion h
      | exact absurd h (next_president_ne_err _ _ _)
      | exact absurd h (enact_policy_ne_err _ _ _ _ _)

theorem vetoResolve_ne_err (s1 : GameState) (sh : List CardColor → List CardColor)
    (m : String) (u : GameState) : s1.vetoResolve sh ≠ Res.err m u := by
  unfold GameState.vetoResolve
  intro hcon
  repeat'
    first
      | split at hcon
      | dsimp only [] at hcon
  all_goals
    first
      | exact Res.noConfusion hcon
      | exact absurd hcon (next_president_ne_err _ _ _)
      | exact absurd hcon (enact_policy_ne_err _ _ _ _ _)

theorem veto_err_unchanged (s : GameState)
    (sh : List CardColor → List CardColor) (p : Nat) (m : String)
    (u : GameState) : s.veto sh p = Res.err m u → u = s := by
  unfold GameState.veto
  intro h
  repeat'
    first
      | split at h
      | dsimp only [] at h
  all_goals
    first
      | (injection h with h1 h2; exact h2.symm)
      | exact Res.noConfusion h
      | exact absurd h (vetoResolve_ne_err _ _ _ _)

theorem execute_power_err_unchanged (s : GameState) (p : Nat) (tg : Option Nat)
    (m : String) (u : GameState) :
    s.execute_presidential_power p tg = Res.err m u → u = s := by
  unfold GameState.execute_presidential_power
  intro h
  repeat'
    first
      | split at h
      | dsimp only [] at h
  all_goals
    first
      | (injection h with h1 h2; exact h2.symm)
      | exact Res.noConfusion h
      | exact absurd h (next_president_ne_err _ _ _)

/-- C9: whenever any of the six engine operations returns an error, the
game state handed back equals the state before the call — every
validation failure precedes every mutation. -/
theorem C9_error_leaves_state_unchanged (s : GameState)
    (shR : List PlayerType → List PlayerType) (shO : List Nat → List Nat)
    (sh : List CardColor → List CardColor) (p t : Nat) (tg : Option Nat)
    (v : Bool) (c : CardColor) (m : String) (u : GameState) :
    (s.start shR shO p = Res.err m u → u = s) ∧
    (s.choose_chancellor p t = Res.err m u → u = s) ∧
    (s.vote_chancellor sh p v = Res.err m u → u = s) ∧
    (s.pick_card sh p c = Res.err m u → u = s) ∧
    (s.veto sh p = Res.err m u → u = s) ∧
    (s.execute_presidential_power p tg = Res.err m u → u = s) :=
  ⟨start_err_unchanged s shR shO p m u,
   choose_chancellor_err_unchanged s p t m u,
   vote_chancellor_err_unchanged s sh p v m u,
   pick_card_err_unchanged s sh p c m u,
   veto_err_unchanged s sh p m u,
   execute_power_err_unchanged s p tg m u⟩

/-- Witness for C9: a concrete failing `choose_chancellor` call hands
back exactly the pre-call state. -/
theorem C9_witness :
    sEnd.choose_chancellor 0 1
        = Res.err "You cannot perform this action at this time!" sEnd ∧
    sEnd = sEnd :=
  ⟨rfl,
   (C9_error_leaves_state_unchanged sEnd id id id 0 1 (some 1) true CardColor.Liberal
       "You cannot perform this action at this time!" sEnd).2.1 rfl⟩

/-- A five-player `Voting` state in which two players are dead: players 0
and 1 have voted yes, player 2 is the remaining alive voter, players 3
and 4 are dead (and so carry no ballot). -/
def cEx1 : GameState := { base5 with
  turn_phase := TurnPhase.Voting
  chancellor := some 1
  turn_order := [0, 1, 2]
  players := [(0, ⟨PlayerType.Liberal, some true, false⟩),
              (1, ⟨PlayerType.Liberal, some true, false⟩),
              (2, ⟨PlayerType.Liberal, none, false⟩),
              (3, ⟨PlayerType.Facist, none, true⟩),
              (4, ⟨PlayerType.Hitler, none, true⟩)] }

def cEx1res : GameState := resState (cEx1.vote_chancellor id 2 false)

/-- C1 counterexample: the alive players vote 2 yes against 1 no, so by
the claim the government is elected; but the code counts the two dead
players' missing ballots as no votes (2 > 3 fails), rejects the
government, clears the chancellor and advances to the next election. -/
theorem C1_counterexample :
    cEx1.vote_chancellor id 2 false = Res.ok cEx1res ∧
    cEx1res.players.countP (fun kv => !kv.2.dead && kv.2.vote == some true) = 2 ∧
    cEx1res.players.countP (fun kv => !kv.2.dead && kv.2.vote == some false) = 1 ∧
    cEx1res.players.countP (fun kv => kv.2.dead) = 2 ∧
    cEx1res.turn_phase = TurnPhase.Electing ∧
    cEx1res.chancellor = none :=
  ⟨rfl, rfl, rfl, rfl, rfl, rfl⟩

/-- A five-player `Voting` state with 3 fascist policies enacted and the
Hitler player nominated as chancellor; everyone else has voted yes and
player 2 casts the final yes ballot. -/
def cEx2 : GameState := { base5 with
  turn_phase := TurnPhase.Voting
  chancellor := some 4
  facist_policies := 3
  players := [(0, ⟨PlayerType.Liberal, some true, false⟩),
              (1, ⟨PlayerType.Liberal, some true, false⟩),
              (2, ⟨PlayerType.Liberal, none, false⟩),
              (3, ⟨PlayerType.Facist, some true, false⟩),
              (4, ⟨PlayerType.Hitler, some true, false⟩)] }

def cEx2res : GameState := resState (cEx2.vote_chancellor id 2 true)

/-- C2 counterexample: the elected chancellor is Hitler and the fascist
policy count is exactly 3, so by the claim the phase must become
`Ended { winner: Fascist }`; the code tests `facist_policies > 3` and
moves to `PresidentSelect` instead. -/
theorem C2_counterexample :
    cEx2.facist_policies = 3 ∧
    cEx2.chancellor = some 4 ∧
    cEx2.players.lookup 4 = some ⟨PlayerType.Hitler, some true, false⟩ ∧
    cEx2.vote_chancellor id 2 true = Res.ok cEx2res ∧
    cEx2res.turn_phase = TurnPhase.PresidentSelect :=
  ⟨rfl, rfl, rfl, rfl, rfl⟩

/-- A five-player `ChancellorSelect` state with veto power unlocked
(5 fascist policies), the president's consent already recorded and the
election tracker at 0; the chancellor's veto call completes the consent. -/
def cEx6 : GameState := { base5 with
  turn_phase := TurnPhase.ChancellorSelect
  chancellor := some 1
  facist_policies := 5
  president_veto := true
  discarded := [CardColor.Facist] }

def cEx6res : GameState := resState (cEx6.veto id 1)

/-- C6 counterexample: both parties have consented and the tracker rises
only to 1 (< 3); by the claim the 3 drawn cards must move to the discard
pile, but the code leaves the draw and discard piles untouched and only
advances the presidency. -/
theorem C6_counterexample :
    cEx6.election_tracker = 0 ∧
    cEx6.veto id 1 = Res.ok cEx6res ∧
    cEx6res.cards = cEx6.cards ∧
    cEx6res.discarded = cEx6.discarded ∧
    cEx6res.election_tracker = 1 ∧
    cEx6res.turn_phase = TurnPhase.Electing :=
  ⟨rfl, rfl, rfl, rfl, rfl, rfl⟩

theorem next_president_ok (s : GameState) (h : s.turn_order ≠ []) :
    ∃ u, s.next_president = Res.ok u ∧ u.chancellor = none ∧ u.cards = s.cards ∧
      u.discarded = s.discarded ∧ u.turn_order = s.turn_order ∧
      u.turn_phase = TurnPhase.Electing ∧ u.election_tracker = s.election_tracker ∧
      u.players = s.players := by
  unfold GameState.next_president
  dsimp only []
  have hlen : 0 < s.turn_order.length := List.length_pos.mpr h
  have hlt : (s.turn_counter + 1) % s.turn_order.length < s.turn_order.length :=
    Nat.mod_lt _ hlen
  rw [List.getElem?_eq_getElem hlt]
  exact ⟨_, rfl, rfl, rfl, rfl, rfl, rfl, rfl, rfl⟩

theorem next_president_ok_chancellor (s : GameState) (h : s.turn_order ≠ [])
    (c0 : Option Nat) :
    ∃ u, s.next_president = Res.ok u ∧ (u.chancellor = c0 ∨ u.chancellor = none) := by
  obtain ⟨u, hu, hch, -, -, -, -, -, -⟩ := next_president_ok s h
  exact ⟨u, hu, Or.inr hch⟩

theorem enactPhase_ok (s : GameState) (c : CardColor) (h : s.turn_order ≠ []) :
    ∃ u, s.enactPhase c = Res.ok u ∧
      (u.chancellor = s.chancellor ∨ u.chancellor = none) := by
  unfold GameState.enactPhase
  repeat'
    first
      | split
      | dsimp only []
  all_goals
    first
      | exact ⟨_, rfl, Or.inl rfl⟩
      | (apply next_president_ok_chancellor
         exact h)

theorem enactChat_chancellor (s : GameState) (c : CardColor) :
    (s.enactChat c).chancellor = s.chancellor := by
  unfold GameState.enactChat GameState.add_chat
  dsimp only []
  split <;> rfl

theorem enactChat_turn_order (s : GameState) (c : CardColor) :
    (s.enactChat c).turn_order = s.turn_order := by
  unfold GameState.enactChat GameState.add_chat
  dsimp only []
  split <;> rfl

theorem enact_policy_ok (s : GameState) (sh : List CardColor → List CardColor)
    (c : CardColor) (h : s.turn_order ≠ []) :
    ∃ u, s.enact_policy sh c = Res.ok u ∧
      (u.chancellor = s.chancellor ∨ u.chancellor = none) := by
  unfold GameState.enact_policy
  dsimp only []
  split
  · obtain ⟨u, hu, hd⟩ := enactPhase_ok ((s.enactChat c).reshuffle_deck sh) c
      (by show (s.enactChat c).turn_order ≠ []
          rw [enactChat_turn_order]
          exact h)
    refine ⟨u, hu, ?_⟩
    rwa [show ((s.enactChat c).reshuffle_deck sh).chancellor = s.chancellor from
      enactChat_chancellor s c] at hd
  · obtain ⟨u, hu, hd⟩ := enactPhase_ok (s.enactChat c) c
      (by rw [enactChat_turn_order]; exact h)
    refine ⟨u, hu, ?_⟩
    rwa [enactChat_chancellor] at hd

theorem next_president_ok_none (s : GameState) (h : s.turn_order ≠ []) :
    ∃ u, s.next_president = Res.ok u ∧ u.chancellor = none := by
  obtain ⟨u, hu, hc, -, -, -, -, -, -⟩ := next_president_ok s h
  exact ⟨u, hu, hc⟩

theorem enact_policy_ok_chancellor_none (s : GameState)
    (sh : List CardColor → List CardColor) (c : CardColor)
    (h : s.turn_order ≠ []) (hc : s.chancellor = none) :
    ∃ u, s.enact_policy sh c = Res.ok u ∧ u.chancellor = none := by
  obtain ⟨u, hu, hd⟩ := enact_policy_ok s sh c h
  refine ⟨u, hu, ?_⟩
  rcases hd with h1 | h1
  · rw [h1, hc]
  · exact h1

theorem recordVote_chancellor (s : GameState) (p : Nat) (v : Bool) :
    (recordVote s p v).chancellor = s.chancellor := rfl

theorem recordVote_facist_policies (s : GameState) (p : Nat) (v : Bool) :
    (recordVote s p v).facist_policies = s.facist_policies := rfl

/-- C1 (amended): once every alive player has voted, the tally counts a
yes ballot for the government and **every other player against it —
including each dead player, whose ballot is absent** (`match val.vote`
treats `None` like a no vote).  The government is elected, i.e. the
nominated chancellor is retained rather than cleared for the
chaos ladder, iff yes votes exceed that count of everyone else. -/
theorem C1_dead_players_count_as_no (s : GameState)
    (sh : List CardColor → List CardColor) (p : Nat) (v : Bool)
    (d : PlayerState) (ch : Nat) (chp : PlayerState)
    (hph : s.turn_phase = TurnPhase.Voting)
    (hp : s.players.lookup p = some d) (hd : d.dead = false)
    (hall : allVoted (recordVote s p v).players = true)
    (hch : s.chancellor = some ch)
    (hchp : (recordVote s p v).players.lookup ch = some chp)
    (hord : s.turn_order ≠ []) (hcards : s.cards ≠ []) :
    (s.vote_chancellor sh p v).isOk = true ∧
    ((voteTally (recordVote s p v).players).1 > (voteTally (recordVote s p v).players).2 ↔
      (resState (s.vote_chancellor sh p v)).chancellor = some ch) := by
  by_cases hgt : (voteTally (recordVote s p v).players).1 > (voteTally (recordVote s p v).players).2
  · have hres : s.vote_chancellor sh p v =
        (if chp.role = PlayerType.Hitler ∧ (recordVote s p v).facist_policies > 3 then
          Res.ok { recordVote s p v with turn_phase := TurnPhase.Ended CardColor.Facist }
        else
          Res.ok { recordVote s p v with
                     turn_phase := TurnPhase.PresidentSelect
                     election_tracker := 0 }) := by
      simp only [GameState.vote_chancellor, hph, TurnPhase.isVoting, Bool.not_true, hp, hd, hall,
        Bool.false_eq_true, if_false, reduceIte, recordVote_chancellor, hch, hchp]
      rw [if_pos hgt]
    refine ⟨?_, ?_⟩
    · rw [hres]
      split <;> rfl
    · rw [hres]
      constructor
      · intro _
        split <;> (show (recordVote s p v).chancellor = some ch; rw [recordVote_chancellor, hch])
      · intro _
        exact hgt
  · obtain ⟨u, hu, hcnone⟩ :
        ∃ u, s.vote_chancellor sh p v = Res.ok u ∧ u.chancellor = none := by
      simp only [GameState.vote_chancellor, hph, TurnPhase.isVoting, Bool.not_true, hp, hd, hall,
        Bool.false_eq_true, if_false, reduceIte]
      rw [if_neg hgt]
      split
      · obtain ⟨a, ha⟩ : ∃ a, (recordVote s p v).cards.getLast? = some a := by
          cases hgl : (recordVote s p v).cards.getLast? with
          | none => exact absurd (List.getLast?_eq_none_iff.mp hgl) hcards
          | some a => exact ⟨a, rfl⟩
        rw [ha]
        apply enact_policy_ok_chancellor_none
        · exact hord
        · rfl
      · apply next_president_ok_none
        exact hord
    refine ⟨by rw [hu]; rfl, ?_⟩
    constructor
    · intro hg
      exact absurd hg hgt
    · intro hcsome
      rw [hu] at hcsome
      simp only [resState] at hcsome
      rw [hcnone] at hcsome
      exact Option.noConfusion hcsome

/-- Witness for C1 at the concrete state `cEx1`. -/
theorem C1_witness :
    (cEx1.vote_chancellor id 2 false).isOk = true ∧
    ((voteTally (recordVote cEx1 2 false).players).1
        > (voteTally (recordVote cEx1 2 false).players).2 ↔
      (resState (cEx1.vote_chancellor id 2 false)).chancellor = some 1) :=
  C1_dead_players_count_as_no cEx1 id 2 false ⟨PlayerType.Liberal, none, false⟩ 1
    ⟨PlayerType.Liberal, some true, false⟩ rfl rfl rfl rfl rfl rfl
    (by decide) (by decide)

/-- C2 (amended): when a government is elected and the elected chancellor
holds the Hitler role, the phase becomes `Ended { winner: Fascist }` only
when the fascist policy count is **strictly greater than 3**; with
exactly 3 (or fewer) fascist policies the phase becomes `PresidentSelect`
instead (the code tests `facist_policies > 3`). -/
theorem C2_hitler_win_needs_more_than_three (s : GameState)
    (sh : List CardColor → List CardColor) (p : Nat) (v : Bool)
    (d : PlayerState) (ch : Nat) (chp : PlayerState)
    (hph : s.turn_phase = TurnPhase.Voting)
    (hp : s.players.lookup p = some d) (hd : d.dead = false)
    (hall : allVoted (recordVote s p v).players = true)
    (hch : s.chancellor = some ch)
    (hchp : (recordVote s p v).players.lookup ch = some chp)
    (hrole : chp.role = PlayerType.Hitler)
    (hgt : (voteTally (recordVote s p v).players).1 > (voteTally (recordVote s p v).players).2) :
    s.vote_chancellor sh p v =
      (if 3 < s.facist_policies then
        Res.ok { recordVote s p v with turn_phase := TurnPhase.Ended CardColor.Facist }
      else
        Res.ok { recordVote s p v with
                   turn_phase := TurnPhase.PresidentSelect
                   election_tracker := 0 }) := by
  have hres : s.vote_chancellor sh p v =
      (if chp.role = PlayerType.Hitler ∧ (recordVote s p v).facist_policies > 3 then
        Res.ok { recordVote s p v with turn_phase := TurnPhase.Ended CardColor.Facist }
      else
        Res.ok { recordVote s p v with
                   turn_phase := TurnPhase.PresidentSelect
                   election_tracker := 0 }) := by
    simp only [GameState.vote_chancellor, hph, TurnPhase.isVoting, Bool.not_true, hp, hd, hall,
      Bool.false_eq_true, if_false, reduceIte, recordVote_chancellor, hch, hchp]
    rw [if_pos hgt]
  rw [hres]
  simp only [hrole, recordVote_facist_policies, true_and, gt_iff_lt]

/-- Witness for C2 at the concrete state `cEx2`. -/
theorem C2_witness :
    cEx2.vote_chancellor id 2 true =
      (if 3 < cEx2.facist_policies then
        Res.ok { recordVote cEx2 2 true with turn_phase := TurnPhase.Ended CardColor.Facist }
      else
        Res.ok { recordVote cEx2 2 true with
                   turn_phase := TurnPhase.PresidentSelect
                   election_tracker := 0 }) :=
  C2_hitler_win_needs_more_than_three cEx2 id 2 true ⟨PlayerType.Liberal, none, false⟩ 4
    ⟨PlayerType.Hitler, some true, false⟩ rfl rfl rfl rfl rfl rfl rfl (by decide)

theorem exists_four_concat (l : List CardColor) (h : 4 ≤ l.length) :
    ∃ l₁ d a b c, l = ((l₁ ++ [d]) ++ [a]) ++ [b] ++ [c] := by
  obtain rfl | ⟨L3, c, rfl⟩ := l.eq_nil_or_concat
  · simp at h
  obtain rfl | ⟨L2, b, rfl⟩ := L3.eq_nil_or_concat
  · simp at h
  obtain rfl | ⟨L1, a, rfl⟩ := L2.eq_nil_or_concat
  · simp at h
  obtain rfl | ⟨L0, d, rfl⟩ := L1.eq_nil_or_concat
  · simp at h
  exact ⟨L0, d, a, b, c, by simp [List.concat_eq_append]⟩

theorem enactChat_cards (s : GameState) (c : CardColor) :
    (s.enactChat c).cards = s.cards := by
  unfold GameState.enactChat GameState.add_chat
  dsimp only []
  split <;> rfl

theorem enactChat_discarded (s : GameState) (c : CardColor) :
    (s.enactChat c).discarded = s.discarded := by
  unfold GameState.enactChat GameState.add_chat
  dsimp only []
  split <;> rfl

theorem enactChat_election_tracker (s : GameState) (c : CardColor) :
    (s.enactChat c).election_tracker = s.election_tracker := by
  unfold GameState.enactChat GameState.add_chat
  dsimp only []
  split <;> rfl

theorem next_president_ok_fields (s : GameState) (h : s.turn_order ≠ []) :
    ∃ u, s.next_president = Res.ok u ∧ u.cards = s.cards ∧ u.discarded = s.discarded ∧
      u.election_tracker = s.election_tracker := by
  obtain ⟨u, hu, -, hc, hd, -, -, he, -⟩ := next_president_ok s h
  exact ⟨u, hu, hc, hd, he⟩

theorem enactPhase_fields (s : GameState) (c : CardColor) (h : s.turn_order ≠ []) :
    ∃ u, s.enactPhase c = Res.ok u ∧ u.cards = s.cards ∧ u.discarded = s.discarded ∧
      u.election_tracker = s.election_tracker := by
  unfold GameState.enactPhase
  repeat'
    first
      | split
      | dsimp only []
  all_goals
    first
      | exact ⟨_, rfl, rfl, rfl, rfl⟩
      | (apply next_president_ok_fields
         exact h)

theorem enact_policy_fields_no_reshuffle (s : GameState)
    (sh : List CardColor → List CardColor) (c : CardColor)
    (hord : s.turn_order ≠ []) (hc : 3 ≤ s.cards.length) :
    ∃ u, s.enact_policy sh c = Res.ok u ∧ u.cards = s.cards ∧ u.discarded = s.discarded ∧
      u.election_tracker = s.election_tracker := by
  unfold GameState.enact_policy
  dsimp only []
  rw [if_neg (by rw [enactChat_cards]; omega)]
  obtain ⟨u, hu, h1, h2, h3⟩ := enactPhase_fields (s.enactChat c) c
    (by rw [enactChat_turn_order]; exact hord)
  refine ⟨u, hu, ?_, ?_, ?_⟩
  · rw [h1, enactChat_cards]
  · rw [h2, enactChat_discarded]
  · rw [h3, enactChat_election_tracker]

theorem vetoResolve_fields (s1 : GameState) (sh : List CardColor → List CardColor)
    (hord : s1.turn_order ≠ []) (hlen : 7 ≤ s1.cards.length) :
    (s1.vetoResolve sh).isOk = true ∧
    (resState (s1.vetoResolve sh)).election_tracker =
      (if s1.election_tracker + 1 ≥ 3 then 0 else s1.election_tracker + 1) ∧
    (s1.election_tracker + 1 < 3 →
      (resState (s1.vetoResolve sh)).cards = s1.cards ∧
      (resState (s1.vetoResolve sh)).discarded = s1.discarded ∧
      (resState (s1.vetoResolve sh)).turn_phase = TurnPhase.Electing) ∧
    (s1.election_tracker + 1 ≥ 3 →
      (resState (s1.vetoResolve sh)).cards = s1.cards.take (s1.cards.length - 4) ∧
      (resState (s1.vetoResolve sh)).discarded =
        s1.discarded.dropLast ++ (s1.cards.drop (s1.cards.length - 3)).reverse) := by
  by_cases ht : s1.election_tracker + 1 ≥ 3
  · obtain ⟨l₁, d, a, b, c, hdec⟩ := exists_four_concat s1.cards (by omega)
    have hlen' : s1.cards.length = l₁.length + 4 := by
      rw [hdec]; simp
    have hl₁ : 3 ≤ l₁.length := by omega
    have hres : s1.vetoResolve sh = GameState.enact_policy
        { s1 with
            election_tracker := 0
            cards := l₁
            discarded := ((s1.discarded.dropLast ++ [c]) ++ [b]) ++ [a] } sh d := by
      unfold GameState.vetoResolve
      dsimp only []
      rw [if_pos ht, hdec]
      simp only [popToDiscard, List.getLast?_concat, List.dropLast_concat]
    obtain ⟨u, hu, hc, hd, he⟩ := enact_policy_fields_no_reshuffle
      { s1 with
          election_tracker := 0
          cards := l₁
          discarded := ((s1.discarded.dropLast ++ [c]) ++ [b]) ++ [a] } sh d hord hl₁
    rw [hres, hu]
    refine ⟨rfl, ?_, ?_, ?_⟩
    · simp only [resState]
      rw [he, if_pos ht]
    · intro hcon
      omega
    · intro _
      simp only [resState]
      have htake : s1.cards.take (s1.cards.length - 4) = l₁ := by
        rw [hdec]
        have h4 : (l₁ ++ [d] ++ [a] ++ [b] ++ [c]).length - 4 = l₁.length := by simp
        rw [h4, show l₁ ++ [d] ++ [a] ++ [b] ++ [c] = l₁ ++ ([d] ++ [a] ++ [b] ++ [c]) by
          simp [List.append_assoc]]
        exact List.take_left _ _
      have hdrop : s1.cards.drop (s1.cards.length - 3) = [a] ++ [b] ++ [c] := by
        rw [hdec]
        have h3 : (l₁ ++ [d] ++ [a] ++ [b] ++ [c]).length - 3 = (l₁ ++ [d]).length := by simp
        rw [h3, show l₁ ++ [d] ++ [a] ++ [b] ++ [c] = (l₁ ++ [d]) ++ ([a] ++ [b] ++ [c]) by
          simp [List.append_assoc]]
        exact List.drop_left _ _
      constructor
      · rw [hc, htake]
      · rw [hd, hdrop]
        simp
  · have hres : s1.vetoResolve sh =
        ({ s1 with election_tracker := s1.election_tracker + 1 } : GameState).next_president := by
      unfold GameState.vetoResolve
      dsimp only []
      rw [if_neg ht]
    obtain ⟨u, hu, -, hc, hd, -, hph, he, -⟩ := next_president_ok
      { s1 with election_tracker := s1.election_tracker + 1 } hord
    rw [hres, hu]
    refine ⟨rfl, ?_, ?_, ?_⟩
    · simp only [resState]
      rw [he, if_neg ht]
    · intro _
      exact ⟨hc, hd, hph⟩
    · intro hcon
      omega

/-- C6 (amended): once both president and chancellor have consented to a
veto, the election tracker is incremented in every case, but the 3 drawn
cards are moved to the discard pile (with the president's set-aside
marker removed first) **only** when the tracker reaches 3, where the next
card is force-enacted and the tracker resets to 0; when the tracker is
still below 3 the drawn cards stay on the draw pile, the discard pile is
untouched, and only the presidency advances.  (The 7-card bound keeps the
forced enactment away from a reshuffle so the final piles are
expressible.) -/
theorem C6_veto_discards_only_at_tracker_three (s : GameState)
    (sh : List CardColor → List CardColor) (p : Nat)
    (hph : s.turn_phase = TurnPhase.ChancellorSelect)
    (hfp : ¬ s.facist_policies < 5)
    (hwho : (some p = s.chancellor ∧ s.president_veto = true) ∨
            (¬ some p = s.chancellor ∧ some p = s.president ∧ s.chancellor_veto = true))
    (hord : s.turn_order ≠ []) (hlen : 7 ≤ s.cards.length) :
    (s.veto sh p).isOk = true ∧
    (resState (s.veto sh p)).election_tracker =
      (if s.election_tracker + 1 ≥ 3 then 0 else s.election_tracker + 1) ∧
    (s.election_tracker + 1 < 3 →
      (resState (s.veto sh p)).cards = s.cards ∧
      (resState (s.veto sh p)).discarded = s.discarded ∧
      (resState (s.veto sh p)).turn_phase = TurnPhase.Electing) ∧
    (s.election_tracker + 1 ≥ 3 →
      (resState (s.veto sh p)).cards = s.cards.take (s.cards.length - 4) ∧
      (resState (s.veto sh p)).discarded =
        s.discarded.dropLast ++ (s.cards.drop (s.cards.length - 3)).reverse) := by
  rcases hwho with ⟨hc1, hpv⟩ | ⟨hnc, hpp, hcv⟩
  · have hres : s.veto sh p = GameState.vetoResolve
        { s with president_veto := true, chancellor_veto := true } sh := by
      unfold GameState.veto
      dsimp only []
      rw [if_neg (by rw [hph]; simp), if_neg hfp, if_pos hc1]
      dsimp only []
      rw [hpv]
      rfl
    rw [hres]
    exact vetoResolve_fields { s with president_veto := true, chancellor_veto := true } sh hord hlen
  · have hres : s.veto sh p = GameState.vetoResolve
        { s with president_veto := true, chancellor_veto := true } sh := by
      unfold GameState.veto
      dsimp only []
      rw [if_neg (by rw [hph]; simp), if_neg hfp, if_neg hnc, if_pos hpp]
      dsimp only []
      rw [hcv]
      rfl
    rw [hres]
    exact vetoResolve_fields { s with president_veto := true, chancellor_veto := true } sh hord hlen

/-- Witness for C6 at the concrete state `cEx6`. -/
theorem C6_witness :
    (cEx6.veto id 1).isOk = true ∧
    (resState (cEx6.veto id 1)).election_tracker =
      (if cEx6.election_tracker + 1 ≥ 3 then 0 else cEx6.election_tracker + 1) ∧
    (cEx6.election_tracker + 1 < 3 →
      (resState (cEx6.veto id 1)).cards = cEx6.cards ∧
      (resState (cEx6.veto id 1)).discarded = cEx6.discarded ∧
      (resState (cEx6.veto id 1)).turn_phase = TurnPhase.Electing) ∧
    (cEx6.election_tracker + 1 ≥ 3 →
      (resState (cEx6.veto id 1)).cards = cEx6.cards.take (cEx6.cards.length - 4) ∧
      (resState (cEx6.veto id 1)).discarded =
        cEx6.discarded.dropLast ++ (cEx6.cards.drop (cEx6.cards.length - 3)).reverse) :=
  C6_veto_discards_only_at_tracker_three cEx6 id 1 rfl (by decide)
    (Or.inl ⟨rfl, rfl⟩) (by decide) (by decide)

/-- C5: for every game state and every observer whose own role is
Liberal, the `role` entry that the view serialization produces for any
*other* player record `(k, v)` is `None` (hidden) whenever `v` is a
Liberal-role player, unless the game has ended or the observer has
investigated `k`; when it is revealed through investigation it is
collapsed to Liberal-vs-Fascist and never reads `Hitler`. -/
theorem C5_liberal_observer_visibility (s : GameState) (o k : Nat) (od v : PlayerState)
    (ho : s.players.lookup o = some od) (horole : od.role = PlayerType.Liberal)
    (hok : o ≠ k) :
    viewRole s o k v = Res.ok (roleEntry s od.role o k v) ∧
    (v.role = PlayerType.Liberal → s.turn_phase.isEnded = false →
      (investigatedOf s o).contains k = false → roleEntry s od.role o k v = none) ∧
    (s.turn_phase.isEnded = true → roleEntry s od.role o k v = some v.role) ∧
    (s.turn_phase.isEnded = false → (investigatedOf s o).contains k = true →
      roleEntry s od.role o k v =
        some (if v.role = PlayerType.Liberal then PlayerType.Liberal else PlayerType.Facist) ∧
      roleEntry s od.role o k v ≠ some PlayerType.Hitler) := by
  refine ⟨?_, ?_, ?_, ?_⟩
  · unfold viewRole
    rw [ho]
  · intro hv he hinv
    have hinv' : k ∉ investigatedOf s o := by simpa using hinv
    simp [roleEntry, horole, he, hinv', hok]
  · intro he
    simp [roleEntry, he]
  · intro he hinv
    have hinv' : k ∈ investigatedOf s o := by simpa using hinv
    constructor
    · simp only [roleEntry, horole, he, hok]
      cases hr : v.role <;> simp [hinv']
    · simp only [roleEntry, horole, he, hok]
      cases hr : v.role <;> simp [hinv']

/-- Witness for C5 at the concrete state `base5`, observer 0 and target
player 2 (both Liberal). -/
theorem C5_witness :
    viewRole base5 0 2 ⟨PlayerType.Liberal, none, false⟩
        = Res.ok (roleEntry base5 PlayerType.Liberal 0 2 ⟨PlayerType.Liberal, none, false⟩) ∧
    ((⟨PlayerType.Liberal, none, false⟩ : PlayerState).role = PlayerType.Liberal →
      base5.turn_phase.isEnded = false → (investigatedOf base5 0).contains 2 = false →
      roleEntry base5 PlayerType.Liberal 0 2 ⟨PlayerType.Liberal, none, false⟩ = none) ∧
    (base5.turn_phase.isEnded = true →
      roleEntry base5 PlayerType.Liberal 0 2 ⟨PlayerType.Liberal, none, false⟩
        = some (⟨PlayerType.Liberal, none, false⟩ : PlayerState).role) ∧
    (base5.turn_phase.isEnded = false → (investigatedOf base5 0).contains 2 = true →
      roleEntry base5 PlayerType.Liberal 0 2 ⟨PlayerType.Liberal, none, false⟩ =
        some (if (⟨PlayerType.Liberal, none, false⟩ : PlayerState).role = PlayerType.Liberal
          then PlayerType.Liberal else PlayerType.Facist) ∧
      roleEntry base5 PlayerType.Liberal 0 2 ⟨PlayerType.Liberal, none, false⟩
        ≠ some PlayerType.Hitler) :=
  C5_liberal_observer_visibility base5 0 2 ⟨PlayerType.Liberal, none, false⟩
    ⟨PlayerType.Liberal, none, false⟩ rfl rfl (by decide)

/-- Role multiset of the assignment `players.iter_mut().zip(roles)`: with
matching lengths, the assigned roles are exactly the shuffled role list. -/
theorem assigned_roles_eq (ps : List (Nat × PlayerState)) (rolesSh : List PlayerType)
    (hlen : rolesSh.length = ps.length) :
    ((ps.zip rolesSh).map (fun x => (x.1.1, { x.1.2 with role := x.2 }))).map
        (fun kv => kv.2.role) = rolesSh := by
  rw [List.map_map]
  have : ((fun kv => kv.2.role) ∘ fun x : (Nat × PlayerState) × PlayerType =>
      (x.1.1, { x.1.2 with role := x.2 })) = Prod.snd := by
    funext x
    rfl
  rw [this]
  exact List.map_snd_zip ps rolesSh (le_of_eq hlen)

theorem startRoles_length (n : Nat) (hf : facistTable n + 1 ≤ n) :
    (startRoles n).length = n := by
  simp [startRoles]
  omega

theorem startRoles_counts (n : Nat) :
    (startRoles n).count PlayerType.Hitler = 1 ∧
    (startRoles n).count PlayerType.Facist = facistTable n ∧
    (startRoles n).count PlayerType.Liberal = n - facistTable n - 1 := by
  refine ⟨?_, ?_, ?_⟩ <;>
    simp [startRoles, List.count_append, List.count_replicate, List.count_singleton]

/-- Modelled from the spec: the fascist-count table
`{5:1, 6:1, 7:2, 8:2, 9:3, 10:3}` of section 4.1, for comparison with
the code's `facistTable`. -/
def specFascistCount (n : Nat) : Nat :=
  if n ≤ 6 then 1 else if n ≤ 8 then 2 else 3

theorem facistTable_spec (n : Nat) (h5 : 5 ≤ n) (h10 : n ≤ 10) :
    facistTable n = specFascistCount n ∧ facistTable n + 1 ≤ n := by
  interval_cases n <;> simp [facistTable, specFascistCount]

theorem start_success (s : GameState) (shR : List PlayerType → List PlayerType)
    (shO : List Nat → List Nat) (p : Nat)
    (hR : IsShuffle shR) (hO : IsShuffle shO)
    (hlob : s.turn_phase = TurnPhase.Lobby) (hhost : s.host = some p)
    (h5 : 5 ≤ s.players.length) (h10 : s.players.length ≤ 10) :
    (s.start shR shO p).isOk = true ∧
    ((resState (s.start shR shO p)).players.map (fun kv => kv.2.role)).count
        PlayerType.Hitler = 1 ∧
    ((resState (s.start shR shO p)).players.map (fun kv => kv.2.role)).count
        PlayerType.Facist = specFascistCount s.players.length ∧
    ((resState (s.start shR shO p)).players.map (fun kv => kv.2.role)).count
        PlayerType.Liberal = s.players.length - specFascistCount s.players.length - 1 ∧
    (resState (s.start shR shO p)).players.length = s.players.length ∧
    (resState (s.start shR shO p)).turn_phase = TurnPhase.Electing ∧
    (resState (s.start shR shO p)).president = (resState (s.start shR shO p)).turn_order.head? := by
  obtain ⟨hfspec, hfn⟩ := facistTable_spec s.players.length h5 h10
  have hlenr : (shR (startRoles s.players.length)).length = s.players.length := by
    rw [(hR (startRoles s.players.length)).length_eq, startRoles_length _ hfn]
  obtain ⟨t0, rest, hcons⟩ : ∃ t0 rest,
      shO ((s.players.zip (shR (startRoles s.players.length))).map (fun x => x.1.1))
        = t0 :: rest := by
    cases hcons : shO ((s.players.zip (shR (startRoles s.players.length))).map
        (fun x => x.1.1)) with
    | nil =>
      have hlen := (hO ((s.players.zip (shR (startRoles s.players.length))).map
        (fun x => x.1.1))).length_eq
      rw [hcons] at hlen
      simp [List.length_zip, hlenr] at hlen
      omega
    | cons t0 rest => exact ⟨t0, rest, rfl⟩
  have hstart : s.start shR shO p = Res.ok { s with
      players := (s.players.zip (shR (startRoles s.players.length))).map
        (fun x => (x.1.1, { x.1.2 with role := x.2 }))
      num_facists := facistTable s.players.length
      president := some t0
      turn_order := t0 :: rest
      turn_phase := TurnPhase.Electing } := by
    unfold GameState.start
    rw [if_neg (by rw [hlob]; simp [TurnPhase.isLobby]), if_neg (fun hc => hc hhost),
      if_neg (by omega)]
    dsimp only []
    rw [hcons]
  rw [hstart]
  have hroles := assigned_roles_eq s.players _ hlenr
  have hcnt := startRoles_counts s.players.length
  have hcount := (hR (startRoles s.players.length)).count_eq
  refine ⟨rfl, ?_, ?_, ?_, ?_, rfl, rfl⟩
  · simp only [resState]
    rw [hroles, hcount, hcnt.1]
  · simp only [resState]
    rw [hroles, hcount, hcnt.2.1, hfspec]
  · simp only [resState]
    rw [hroles, hcount, hcnt.2.2, hfspec]
  · simp only [resState]
    rw [List.length_map, List.length_zip, hlenr]
    omega

/-- C10: a successful `start` (phase Lobby, caller is host, 5-10
players, shuffles are permutations) assigns exactly one Hitler, exactly
the table value of fascists, liberals to all remaining players (total
n), sets the president to the first entry of the shuffled turn order and
moves the phase to `Electing`; `start` is rejected outside Lobby, for a
non-host caller, or with a player count outside 5..10. -/
theorem C10_start_roles (s : GameState) (shR : List PlayerType → List PlayerType)
    (shO : List Nat → List Nat) (p : Nat)
    (hR : IsShuffle shR) (hO : IsShuffle shO) :
    (s.turn_phase ≠ TurnPhase.Lobby → (s.start shR shO p).isErr = true) ∧
    (s.host ≠ some p → (s.start shR shO p).isErr = true) ∧
    (s.players.length < 5 ∨ s.players.length > 10 → (s.start shR shO p).isErr = true) ∧
    (s.turn_phase = TurnPhase.Lobby → s.host = some p → 5 ≤ s.players.length →
      s.players.length ≤ 10 →
      (s.start shR shO p).isOk = true ∧
      ((resState (s.start shR shO p)).players.map (fun kv => kv.2.role)).count
          PlayerType.Hitler = 1 ∧
      ((resState (s.start shR shO p)).players.map (fun kv => kv.2.role)).count
          PlayerType.Facist = specFascistCount s.players.length ∧
      ((resState (s.start shR shO p)).players.map (fun kv => kv.2.role)).count
          PlayerType.Liberal = s.players.length - specFascistCount s.players.length - 1 ∧
      (resState (s.start shR shO p)).players.length = s.players.length ∧
      (resState (s.start shR shO p)).turn_phase = TurnPhase.Electing ∧
      (resState (s.start shR shO p)).president
        = (resState (s.start shR shO p)).turn_order.head?) := by
  refine ⟨?_, ?_, ?_, ?_⟩
  · intro hn
    unfold GameState.start
    split
    · rfl
    all_goals
      exfalso
      apply hn
      cases hp : s.turn_phase <;> simp_all [TurnPhase.isLobby]
  · intro hh
    unfold GameState.start
    split
    all_goals rfl
  · intro hc
    unfold GameState.start
    split
    all_goals try rfl
    split
    all_goals rfl
  · intro h1 h2 h3 h4
    exact start_success s shR shO p hR hO h1 h2 h3 h4

/-- Witness for C10 at the concrete lobby `t5` (5 players, host 0,
identity shuffles). -/
theorem C10_witness :
    (t5.turn_phase ≠ TurnPhase.Lobby → (t5.start id id 0).isErr = true) ∧
    (t5.host ≠ some 0 → (t5.start id id 0).isErr = true) ∧
    (t5.players.length < 5 ∨ t5.players.length > 10 → (t5.start id id 0).isErr = true) ∧
    (t5.turn_phase = TurnPhase.Lobby → t5.host = some 0 → 5 ≤ t5.players.length →
      t5.players.length ≤ 10 →
      (t5.start id id 0).isOk = true ∧
      ((resState (t5.start id id 0)).players.map (fun kv => kv.2.role)).count
          PlayerType.Hitler = 1 ∧
      ((resState (t5.start id id 0)).players.map (fun kv => kv.2.role)).count
          PlayerType.Facist = specFascistCount t5.players.length ∧
      ((resState (t5.start id id 0)).players.map (fun kv => kv.2.role)).count
          PlayerType.Liberal = t5.players.length - specFascistCount t5.players.length - 1 ∧
      (resState (t5.start id id 0)).players.length = t5.players.length ∧
      (resState (t5.start id id 0)).turn_phase = TurnPhase.Electing ∧
      (resState (t5.start id id 0)).president
        = (resState (t5.start id id 0)).turn_order.head?) :=
  C10_start_roles t5 id id 0 isShuffle_id isShuffle_id
